import Mathlib

/-!
Verification of the madrasah admin backend (`main.py`): password hashing,
login/session issuance, bearer-token authentication, bootstrap of the default
admin user, and the dashboard handler.

The store handle `db` is imported by `main.py` from a `database` module that is
not part of the sources; the store is therefore modelled from the spec's
collaborator contracts (§4.1, §4.2): two collections holding admin-user and
session documents, with `find_one` returning the first matching document and
`insert_one` appending. Wall-clock time and the random bytes backing
`secrets.token_hex` enter the model as explicit parameters.
-/

/-! ### SHA-256, embedding `hashlib.sha256(...).hexdigest()` on byte lists -/

/-- 2^32, the modulus of 32-bit words. -/
def M32 : Nat := 4294967296

/-- 32-bit modular addition. -/
def add32 (a b : Nat) : Nat := (a + b) % M32

/-- Bitwise complement on 32 bits. -/
def not32 (a : Nat) : Nat := Nat.xor a (M32 - 1)

/-- Right rotation of a 32-bit word by `n` places. -/
def rotr32 (n a : Nat) : Nat := a / 2 ^ n + a % 2 ^ n * 2 ^ (32 - n)

/-- Logical right shift of a 32-bit word. -/
def shr32 (n a : Nat) : Nat := a / 2 ^ n

/-- SHA-256 round constants (fractional parts of cube roots of the first 64
primes), written in decimal. -/
def shaK : List Nat :=
  [1116352408, 1899447441, 3049323471, 3921009573, 961987163, 1508970993,
   2453635748, 2870763221, 3624381080, 310598401, 607225278, 1426881987,
   1925078388, 2162078206, 2614888103, 3248222580, 3835390401, 4022224774,
   264347078, 604807628, 770255983, 1249150122, 1555081692, 1996064986,
   2554220882, 2821834349, 2952996808, 3210313671, 3336571891, 3584528711,
   113926993, 338241895, 666307205, 773529912, 1294757372, 1396182291,
   1695183700, 1986661051, 2177026350, 2456956037, 2730485921, 2820302411,
   3259730800, 3345764771, 3516065817, 3600352804, 4094571909, 275423344,
   430227734, 506948616, 659060556, 883997877, 958139571, 1322822218,
   1537002063, 1747873779, 1955562222, 2024104815, 2227730452, 2361852424,
   2428436474, 2756734187, 3204031479, 3329325298]

/-- SHA-256 initial hash state, in decimal. -/
def shaH0 : List Nat :=
  [1779033703, 3144134277, 1013904242, 2773480762,
   1359893119, 2600822924, 528734635, 1541459225]

/-- `Ch(x, y, z)` of the SHA-256 round function. -/
def shaCh (x y z : Nat) : Nat := Nat.xor (Nat.land x y) (Nat.land (not32 x) z)

/-- `Maj(x, y, z)` of the SHA-256 round function. -/
def shaMaj (x y z : Nat) : Nat := Nat.xor (Nat.xor (Nat.land x y) (Nat.land x z)) (Nat.land y z)

/-- Big sigma-0 of SHA-256. -/
def bigSigma0 (x : Nat) : Nat := Nat.xor (Nat.xor (rotr32 2 x) (rotr32 13 x)) (rotr32 22 x)

/-- Big sigma-1 of SHA-256. -/
def bigSigma1 (x : Nat) : Nat := Nat.xor (Nat.xor (rotr32 6 x) (rotr32 11 x)) (rotr32 25 x)

/-- Small sigma-0 of SHA-256 (message schedule). -/
def smallSigma0 (x : Nat) : Nat := Nat.xor (Nat.xor (rotr32 7 x) (rotr32 18 x)) (shr32 3 x)

/-- Small sigma-1 of SHA-256 (message schedule). -/
def smallSigma1 (x : Nat) : Nat := Nat.xor (Nat.xor (rotr32 17 x) (rotr32 19 x)) (shr32 10 x)

/-- Big-endian byte encoding of `v` on `n` bytes. -/
def toBytesBE (n v : Nat) : List Nat :=
  (List.range n).map (fun i => v / 2 ^ (8 * (n - 1 - i)) % 256)

/-- Big-endian 32-bit word from four bytes. -/
def wordBE (bs : List Nat) : Nat :=
  bs.foldl (fun acc b => acc * 256 + b) 0

/-- SHA-256 padding: append `0x80`, zeros, and the 64-bit bit length. -/
def padMessage (msg : List Nat) : List Nat :=
  msg ++ [0x80] ++ List.replicate ((55 + 64 - msg.length % 64) % 64) 0 ++ toBytesBE 8 (msg.length * 8)

/-- Split a byte list into 64-byte chunks; `fuel` bounds the recursion. -/
def chunk64 : Nat → List Nat → List (List Nat)
  | _, [] => []
  | 0, l => [l]
  | fuel + 1, l => l.take 64 :: chunk64 fuel (l.drop 64)

/-- The 16 initial schedule words of a 64-byte chunk. -/
def chunkWords (chunk : List Nat) : List Nat :=
  (List.range 16).map (fun i => wordBE ((chunk.drop (4 * i)).take 4))

/-- Extend the message schedule by `n` further words. -/
def extendW (ws : List Nat) : Nat → List Nat
  | 0 => ws
  | n + 1 =>
    let ws' := extendW ws n
    ws' ++ [add32 (add32 (smallSigma1 (ws'.getD (ws'.length - 2) 0)) (ws'.getD (ws'.length - 7) 0))
                  (add32 (smallSigma0 (ws'.getD (ws'.length - 15) 0)) (ws'.getD (ws'.length - 16) 0))]

/-- One SHA-256 round on the eight-word working state. -/
def shaRound (st : List Nat) (ki wi : Nat) : List Nat :=
  match st with
  | [a, b, c, d, e, f, g, h] =>
    let t1 := add32 h (add32 (bigSigma1 e) (add32 (shaCh e f g) (add32 ki wi)))
    let t2 := add32 (bigSigma0 a) (shaMaj a b c)
    [add32 t1 t2, a, b, c, add32 d t1, e, f, g]
  | _ => st

/-- Compress one 64-byte chunk into the running hash state. -/
def processChunk (h : List Nat) (chunk : List Nat) : List Nat :=
  let ws := extendW (chunkWords chunk) 48
  let st := (shaK.zip ws).foldl (fun st kw => shaRound st kw.1 kw.2) h
  (h.zip st).map (fun xy => add32 xy.1 xy.2)

/-- SHA-256 digest (32 bytes) of a byte list. -/
def sha256Bytes (msg : List Nat) : List Nat :=
  let padded := padMessage msg
  ((chunk64 padded.length padded).foldl processChunk shaH0).flatMap (toBytesBE 4)

/-- UTF-8 encoding of one character, as Python's `str.encode()` produces. -/
def utf8Char (c : Char) : List Nat :=
  let n := c.toNat
  if n < 0x80 then [n]
  else if n < 0x800 then [0xC0 + n / 64, 0x80 + n % 64]
  else if n < 0x10000 then [0xE0 + n / 4096, 0x80 + n / 64 % 64, 0x80 + n % 64]
  else [0xF0 + n / 262144, 0x80 + n / 4096 % 64, 0x80 + n / 64 % 64, 0x80 + n % 64]

/-- UTF-8 byte encoding of a string (`password.encode()` in `main.py`). -/
def utf8Bytes (s : String) : List Nat := s.data.flatMap utf8Char

/-- Lowercase hex digit for `n < 16` (`'0'`-`'9'`, `'a'`-`'f'`). -/
def hexDigitChar (n : Nat) : Char :=
  if n < 10 then Char.ofNat (48 + n) else Char.ofNat (87 + n)

/-- Two lowercase hex digits of one byte. -/
def byteToHex (b : Nat) : List Char := [hexDigitChar (b / 16 % 16), hexDigitChar (b % 16)]

/-- Lowercase hex string of a byte list (`hexdigest` / `token_hex` rendering). -/
def bytesToHex (bs : List Nat) : String := ⟨bs.flatMap byteToHex⟩

/-- `hash_password` of `main.py`: `hashlib.sha256(password.encode()).hexdigest()`. -/
def hash_password (password : String) : String := bytesToHex (sha256Bytes (utf8Bytes password))

/-! ### Data model

Documents are Python dicts; a field the code reads with `.get` (and that some
documents may lack) is modelled as an `Option`, with `none` for an absent key. -/

/-- An `adminuser` document. `oid` models the Mongo `_id` field. -/
structure AdminUserDoc where
  oid : Option String
  name : Option String
  email : Option String
  username : String
  password_hash : Option String
  role : Option String
  is_active : Bool
  created_at : Nat
  updated_at : Nat
deriving DecidableEq, Repr

/-- A `session` document. `login` inserts a dict with no `name` key, which the
dashboard later reads with `.get("name", ...)`; hence the `Option` field. -/
structure SessionDoc where
  user_id : String
  token : String
  role : String
  expires_at : Option Nat
  revoked : Bool
  created_at : Nat
  updated_at : Nat
  name : Option String
deriving DecidableEq, Repr

/-- Modelled from the spec: the store behind the `db` handle that `main.py`
imports from the absent `database` module — two collections (§4.1, §4.2),
`find_one` returning the first match in insertion order, `insert_one`
appending. `Option DB` is the nullable handle (`db is None` checks). -/
structure DB where
  adminusers : List AdminUserDoc
  sessions : List SessionDoc
deriving DecidableEq, Repr

/-- An `HTTPException(status_code, detail)`. -/
structure HTTPError where
  status : Nat
  detail : String
deriving DecidableEq, Repr

/-- The `LoginRequest` pydantic model. -/
structure LoginRequest where
  username : String
  password : String
deriving DecidableEq, Repr

/-- The `LoginResponse` pydantic model. -/
structure LoginResponse where
  token : String
  name : String
  role : String
deriving DecidableEq, Repr

/-- What `require_auth` returns: the session document found in the store, or
the fixed demo dict `{"role": "admin", "name": "Administrator"}`. -/
inductive AuthOut where
  | session (s : SessionDoc)
  | demo
deriving DecidableEq, Repr

/-! ### Operations of `main.py` -/

/-- `secrets.token_hex` over its random bytes, made an explicit input: the hex
rendering of the byte list drawn from the CSPRNG (`token_hex(24)` draws 24). -/
def tokenHex (bytes : List Nat) : String := bytesToHex bytes

/-- Eight hours in seconds, `timedelta(hours=8)` (timestamps are seconds). -/
def eightHours : Nat := 8 * 60 * 60

/-- The document `create_default_admin` inserts, at time `now`. -/
def defaultAdminDoc (now : Nat) : AdminUserDoc :=
  { oid := none
    name := some "Administrator"
    email := some "admin@example.com"
    username := "admin"
    password_hash := some (hash_password "admin123")
    role := some "admin"
    is_active := true
    created_at := now
    updated_at := now }

/-- `create_default_admin` of `main.py`: look up `{"username": "admin"}` and
insert the default admin document when absent; on a `None` handle the body's
store access raises and is swallowed, leaving the store untouched. -/
def create_default_admin (db : Option DB) (now : Nat) : Option DB :=
  match db with
  | none => none
  | some d =>
    match d.adminusers.find? (fun u => u.username == "admin") with
    | some _ => some d
    | none => some { d with adminusers := d.adminusers ++ [defaultAdminDoc now] }

/-- Run `create_default_admin` once per listed startup time. -/
def bootstrapMany (times : List Nat) (db : Option DB) : Option DB :=
  match times with
  | [] => db
  | t :: ts => bootstrapMany ts (create_default_admin db t)

/-- The session dict `login` inserts (lines 86–94 of `main.py`): note the
absence of a `name` key, and `str(user.get("_id"))` rendering a missing id as
`"None"`. -/
def mkSession (user : AdminUserDoc) (now : Nat) (tokenBytes : List Nat) : SessionDoc :=
  { user_id := user.oid.getD "None"
    token := tokenHex tokenBytes
    role := user.role.getD "admin"
    expires_at := some (now + eightHours)
    revoked := false
    created_at := now
    updated_at := now
    name := none }

/-- `login` of `main.py`. `now` is the wall clock at the request and
`tokenBytes` the CSPRNG output behind `secrets.token_hex(24)`. Returns the
resulting store (an `HTTPException` path inserts nothing) and the outcome. -/
def login (db : Option DB) (payload : LoginRequest) (now : Nat) (tokenBytes : List Nat) :
    Option DB × Except HTTPError LoginResponse :=
  match db with
  | none =>
    if payload.username == "admin" && payload.password == "admin123" then
      (none, .ok ⟨"demo-token", "Administrator", "admin"⟩)
    else
      (none, .error ⟨500, "Database not configured"⟩)
  | some d =>
    match d.adminusers.find? (fun u => u.username == payload.username && u.is_active) with
    | none => (some d, .error ⟨401, "User not found or inactive"⟩)
    | some user =>
      if user.password_hash ≠ some (hash_password payload.password) then
        (some d, .error ⟨401, "Invalid credentials"⟩)
      else
        (some { d with sessions := d.sessions ++ [mkSession user now tokenBytes] },
         .ok ⟨tokenHex tokenBytes, user.name.getD "Admin", user.role.getD "admin"⟩)

/-- Python's `authorization.replace("Bearer ", "")`: left-to-right removal of
every occurrence of the 7-character substring; `fuel` bounds the recursion and
any `fuel ≥ s.length` computes the replacement. -/
def removeBearerAux : Nat → List Char → List Char
  | _, [] => []
  | 0, s => s
  | fuel + 1, c :: rest =>
    if "Bearer ".data.isPrefixOf (c :: rest) then removeBearerAux fuel (rest.drop 6)
    else c :: removeBearerAux fuel rest

/-- The token extraction on line 102 of `main.py`. -/
def pyReplaceBearer (s : String) : String := ⟨removeBearerAux s.data.length s.data⟩

/-- Whether `"Bearer "` occurs as a substring. -/
def hasBearer : List Char → Bool
  | [] => false
  | c :: rest => "Bearer ".data.isPrefixOf (c :: rest) || hasBearer rest

/-- The token handling as claim C5 words it: strip a leading `"Bearer "` and
only that, leaving any other header unchanged. Stated from the spec for
comparison with `pyReplaceBearer`; not code of `main.py`. -/
def claimedStripBearer (s : String) : String :=
  if "Bearer ".data.isPrefixOf s.data then ⟨s.data.drop 7⟩ else s

/-- Lines 103–113 of `main.py`: what `require_auth` does with the extracted
token — demo-mode comparison against `"demo-token"`, or the store lookup
filtered to non-revoked plus the expiry check. -/
def authToken (db : Option DB) (token : String) (now : Nat) : Except HTTPError AuthOut :=
  match db with
  | none =>
    if token == "demo-token" then .ok .demo
    else .error ⟨401, "Invalid token"⟩
  | some d =>
    match d.sessions.find? (fun s => s.token == token && !s.revoked) with
    | none => .error ⟨401, "Invalid token"⟩
    | some s =>
      match s.expires_at with
      | some e => if e < now then .error ⟨401, "Token expired"⟩ else .ok (.session s)
      | none => .ok (.session s)

/-- `require_auth` of `main.py`: reject an absent header, extract the token
with `replace("Bearer ", "")`, then validate it. -/
def require_auth (db : Option DB) (authorization : Option String) (now : Nat) :
    Except HTTPError AuthOut :=
  match authorization with
  | none => .error ⟨401, "Missing Authorization header"⟩
  | some h => authToken db (pyReplaceBearer h) now

/-- The dashboard payload. -/
structure DashboardOut where
  user_name : String
  students : Nat
  teachers : Nat
  classes : Nat
  alumni : Nat
  announcements : List (String × String)
deriving DecidableEq, Repr

/-- `dashboard` of `main.py`, applied to the authenticated identity:
`auth.get("name", "Administrator")` plus the fixed stats and announcements. -/
def dashboard (auth : AuthOut) : DashboardOut :=
  { user_name :=
      match auth with
      | .session s => s.name.getD "Administrator"
      | .demo => "Administrator"
    students := 1240
    teachers := 68
    classes := 32
    alumni := 5400
    announcements := [("Penerimaan Santri Baru", "2025-06-01"),
                      ("Ujian Akhir Semester", "2025-12-15")] }

/-- Number of documents in a user collection with username `"admin"`. -/
def countAdmin (l : List AdminUserDoc) : Nat :=
  (l.filter (fun u => u.username == "admin")).length

/-! ### Helper lemmas -/

/-- The embedded SHA-256 agrees with the reference digest of `"admin123"`. -/
theorem hash_password_admin123 :
    hash_password "admin123" =
      "240be518fabd2724ddb6f04eeb1da5967448d7e831c08c8fa822809f74c720a9" := by decide

/-- The lowercase hex alphabet. -/
def hexChars : List Char := "0123456789abcdef".data

theorem hexDigitChar_mem_hexChars : ∀ n < 16, hexDigitChar n ∈ hexChars := by decide

theorem mem_byteToHex (b : Nat) : ∀ c ∈ byteToHex b, c ∈ hexChars := by
  intro c hc
  simp only [byteToHex, List.mem_cons, List.not_mem_nil, or_false] at hc
  rcases hc with hc | hc <;> subst hc <;>
    exact hexDigitChar_mem_hexChars _ (Nat.mod_lt _ (by norm_num))

theorem mem_tokenHex_hexChars (bytes : List Nat) :
    ∀ c ∈ (tokenHex bytes).data, c ∈ hexChars := by
  intro c hc
  simp only [tokenHex, bytesToHex, List.mem_flatMap] at hc
  obtain ⟨b, _, hb⟩ := hc
  exact mem_byteToHex b c hb

theorem flatMap_byteToHex_length (bs : List Nat) :
    (bs.flatMap byteToHex).length = 2 * bs.length := by
  induction bs with
  | nil => rfl
  | cons b bs ih => simp [byteToHex, ih, Nat.mul_succ]

theorem tokenHex_length (bytes : List Nat) :
    (tokenHex bytes).length = 2 * bytes.length := by
  simpa [tokenHex, bytesToHex, String.length] using flatMap_byteToHex_length bytes

theorem hasBearer_eq_false_of_no_B (l : List Char) (h : 'B' ∉ l) : hasBearer l = false := by
  induction l with
  | nil => rfl
  | cons c rest ih =>
    have hc : c ≠ 'B' := fun hc => h (hc ▸ List.mem_cons_self c rest)
    have hrest : 'B' ∉ rest := fun hm => h (List.mem_cons_of_mem c hm)
    simp only [hasBearer, Bool.or_eq_false_iff]
    refine ⟨?_, ih hrest⟩
    show (('B' == c) && _) = false
    simp [beq_iff_eq, Ne.symm hc]

theorem removeBearerAux_of_no_bearer :
    ∀ (l : List Char) (fuel : Nat), hasBearer l = false → removeBearerAux fuel l = l := by
  intro l
  induction l with
  | nil => intro fuel _; cases fuel <;> rfl
  | cons c rest ih =>
    intro fuel hl
    cases fuel with
    | zero => rfl
    | succ f =>
      simp only [hasBearer, Bool.or_eq_false_iff] at hl
      simp only [removeBearerAux, hl.1, Bool.false_eq_true, if_false]
      rw [ih f hl.2]

theorem pyReplaceBearer_eq_self (t : String) (h : hasBearer t.data = false) :
    pyReplaceBearer t = t := by
  unfold pyReplaceBearer
  rw [removeBearerAux_of_no_bearer t.data t.data.length h]

theorem tokenHex_no_bearer (bytes : List Nat) : hasBearer (tokenHex bytes).data = false := by
  refine hasBearer_eq_false_of_no_B _ (fun hB => ?_)
  have := mem_tokenHex_hexChars bytes 'B' hB
  simp [hexChars] at this

theorem pyReplaceBearer_tokenHex (bytes : List Nat) :
    pyReplaceBearer (tokenHex bytes) = tokenHex bytes :=
  pyReplaceBearer_eq_self _ (tokenHex_no_bearer bytes)

/-! ### Claim theorems -/

/-- C6: with no store configured, login with the demo pair returns exactly the
demo token, name and role; any other pair fails with HTTP 500. -/
theorem demo_login_exact (now : Nat) (bytes : List Nat) :
    login none ⟨"admin", "admin123"⟩ now bytes =
      (none, .ok ⟨"demo-token", "Administrator", "admin"⟩) ∧
    ∀ u p, ¬(u = "admin" ∧ p = "admin123") →
      login none ⟨u, p⟩ now bytes = (none, .error ⟨500, "Database not configured"⟩) := by
  refine ⟨rfl, ?_⟩
  intro u p h
  have hc : ¬((u == "admin" && p == "admin123") = true) := by
    intro hq
    rw [Bool.and_eq_true, beq_iff_eq, beq_iff_eq] at hq
    exact h hq
  simp [login, hc]

/-- Witness for C6 at the concrete non-demo pair `("guest", "x")`. -/
theorem demo_login_exact_witness :
    ¬(("guest" : String) = "admin" ∧ ("x" : String) = "admin123") ∧
    login none ⟨"guest", "x"⟩ 0 [] = (none, .error ⟨500, "Database not configured"⟩) :=
  ⟨by decide, (demo_login_exact 0 []).2 "guest" "x" (by decide)⟩

/-- C2: a wrong password for a found active user yields HTTP 401
`"Invalid credentials"` and returns the store unchanged (no session inserted). -/
theorem login_wrong_password_rejected (d : DB) (payload : LoginRequest) (now : Nat)
    (bytes : List Nat) (u : AdminUserDoc)
    (hfind : d.adminusers.find? (fun x => x.username == payload.username && x.is_active) = some u)
    (hpw : u.password_hash ≠ some (hash_password payload.password)) :
    login (some d) payload now bytes = (some d, .error ⟨401, "Invalid credentials"⟩) := by
  simp [login, hfind, hpw]

/-- A stored user for the concrete witnesses. -/
def wUser : AdminUserDoc :=
  { oid := some "64a1f0"
    name := some "Siti Aminah"
    email := some "siti@example.com"
    username := "siti"
    password_hash := some (hash_password "correct-horse")
    role := some "editor"
    is_active := true
    created_at := 0
    updated_at := 0 }

/-- A store holding just `wUser` and no sessions. -/
def wDB : DB := { adminusers := [wUser], sessions := [] }

/-- Witness for C2: `wUser` with the wrong password `"wrongpw"`. -/
theorem login_wrong_password_rejected_witness :
    wDB.adminusers.find? (fun x => x.username == "siti" && x.is_active) = some wUser ∧
    wUser.password_hash ≠ some (hash_password "wrongpw") ∧
    login (some wDB) ⟨"siti", "wrongpw"⟩ 0 [] = (some wDB, .error ⟨401, "Invalid credentials"⟩) :=
  ⟨rfl, by decide,
   login_wrong_password_rejected wDB ⟨"siti", "wrongpw"⟩ 0 [] wUser rfl (by decide)⟩

/-- C3: when every stored session carrying the extracted token is revoked (in
particular when no session carries it), authentication fails with HTTP 401. -/
theorem authenticate_unknown_or_revoked_rejected (d : DB) (h : String) (now : Nat)
    (habs : ∀ s ∈ d.sessions, s.token = pyReplaceBearer h → s.revoked = true) :
    require_auth (some d) (some h) now = .error ⟨401, "Invalid token"⟩ := by
  have hfind : d.sessions.find? (fun s => s.token == pyReplaceBearer h && !s.revoked) = none := by
    rw [List.find?_eq_none]
    intro s hs hc
    simp only [Bool.and_eq_true, beq_iff_eq, Bool.not_eq_true'] at hc
    have hrev := habs s hs hc.1
    rw [hrev] at hc
    exact absurd hc.2 (by decide)
  simp [require_auth, authToken, hfind]

/-- A revoked session for the C3 witness. -/
def wRevoked : SessionDoc :=
  { user_id := "64a1f0"
    token := "tok1"
    role := "editor"
    expires_at := none
    revoked := true
    created_at := 0
    updated_at := 0
    name := none }

/-- A store whose only session is revoked. -/
def wDBrevoked : DB := { adminusers := [wUser], sessions := [wRevoked] }

/-- Witness for C3: the only session with token `"tok1"` is revoked. -/
theorem authenticate_unknown_or_revoked_rejected_witness :
    (∀ s ∈ wDBrevoked.sessions, s.token = pyReplaceBearer "tok1" → s.revoked = true) ∧
    require_auth (some wDBrevoked) (some "tok1") 0 = .error ⟨401, "Invalid token"⟩ :=
  ⟨by decide, authenticate_unknown_or_revoked_rejected wDBrevoked "tok1" 0 (by decide)⟩

/-- C4: for the stored non-revoked session found under the extracted token,
authentication fails with `"Token expired"` exactly when its `expires_at` is
present and strictly earlier than now; with no `expires_at` it succeeds. -/
theorem authenticate_expiry_boundary (d : DB) (h : String) (now : Nat) (s : SessionDoc)
    (hfind : d.sessions.find? (fun x => x.token == pyReplaceBearer h && !x.revoked) = some s) :
    (require_auth (some d) (some h) now = .error ⟨401, "Token expired"⟩ ↔
      ∃ e, s.expires_at = some e ∧ e < now) ∧
    (s.expires_at = none → require_auth (some d) (some h) now = .ok (.session s)) := by
  simp only [require_auth, authToken, hfind]
  rcases hexp : s.expires_at with _ | e
  · simp [hexp]
  · by_cases hlt : e < now
    · simp [hexp, hlt]
    · simp [hexp, hlt]

/-- A live session expiring at time 100, for the C4 witness. -/
def wLive : SessionDoc :=
  { user_id := "64a1f0"
    token := "tokA"
    role := "editor"
    expires_at := some 100
    revoked := false
    created_at := 0
    updated_at := 0
    name := none }

/-- A store whose only session is `wLive`. -/
def wDBlive : DB := { adminusers := [wUser], sessions := [wLive] }

/-- Witness for C4: `wLive` found under token `"tokA"` at time 50. -/
theorem authenticate_expiry_boundary_witness :
    wDBlive.sessions.find? (fun x => x.token == pyReplaceBearer "tokA" && !x.revoked) =
      some wLive ∧
    ((require_auth (some wDBlive) (some "tokA") 50 = .error ⟨401, "Token expired"⟩ ↔
      ∃ e, wLive.expires_at = some e ∧ e < 50) ∧
     (wLive.expires_at = none →
      require_auth (some wDBlive) (some "tokA") 50 = .ok (.session wLive))) :=
  ⟨rfl, authenticate_expiry_boundary wDBlive "tokA" 50 wLive rfl⟩

/-! ### Token extraction (claim C5) -/

theorem removeBearerAux_cons_match (fuel : Nat) (c : Char) (rest : List Char)
    (h : "Bearer ".data.isPrefixOf (c :: rest) = true) :
    removeBearerAux (fuel + 1) (c :: rest) = removeBearerAux fuel (rest.drop 6) := by
  simp [removeBearerAux, h]

theorem pyReplaceBearer_bearer_head (t : String) (h : hasBearer t.data = false) :
    pyReplaceBearer ("Bearer " ++ t) = t := by
  have hdata : ("Bearer " ++ t).data = 'B' :: 'e' :: 'a' :: 'r' :: 'e' :: 'r' :: ' ' :: t.data := by
    rw [String.data_append]
    rfl
  have hpre : "Bearer ".data.isPrefixOf
      ('B' :: 'e' :: 'a' :: 'r' :: 'e' :: 'r' :: ' ' :: t.data) = true := by
    simp [List.isPrefixOf]
  unfold pyReplaceBearer
  rw [hdata]
  rw [show ('B' :: 'e' :: 'a' :: 'r' :: 'e' :: 'r' :: ' ' :: t.data).length =
        (t.data.length + 6) + 1 from rfl]
  rw [removeBearerAux_cons_match (t.data.length + 6) 'B' _ hpre]
  rw [show (('e' :: 'a' :: 'r' :: 'e' :: 'r' :: ' ' :: t.data).drop 6) = t.data from rfl]
  rw [removeBearerAux_of_no_bearer t.data _ h]

/-- A stored non-revoked, non-expiring session whose token contains
`"Bearer "` in its interior. -/
def wOdd : SessionDoc :=
  { user_id := "64a1f0"
    token := "abcBearer def"
    role := "editor"
    expires_at := none
    revoked := false
    created_at := 0
    updated_at := 0
    name := none }

/-- A store whose only session is `wOdd`. -/
def wDBodd : DB := { adminusers := [wUser], sessions := [wOdd] }

/-- Counterexample to C5 as stated: the header `"abcBearer def"` does not
start with `"Bearer "`, so by the claim it should pass through unchanged and
be accepted as the bare token of the stored session; the code instead removes
the interior occurrence, looks up `"abcdef"`, and rejects with 401. -/
theorem bearer_strip_counterexample :
    pyReplaceBearer "abcBearer def" = "abcdef" ∧
    claimedStripBearer "abcBearer def" = "abcBearer def" ∧
    pyReplaceBearer "abcBearer def" ≠ claimedStripBearer "abcBearer def" ∧
    wOdd.token = "abcBearer def" ∧ wOdd.revoked = false ∧ wOdd.expires_at = none ∧
    require_auth (some wDBodd) (some "abcBearer def") 0 = .error ⟨401, "Invalid token"⟩ := by
  refine ⟨by decide, by decide, by decide, rfl, rfl, rfl, ?_⟩
  rfl

/-- C5 amended: an absent header fails with 401; the token looked up is the
header with every occurrence of the substring `"Bearer "` removed — which
agrees with prefix stripping (and with accepting a bare token) whenever the
rest of the header contains no further occurrence. -/
theorem require_auth_bearer_replace_all :
    (∀ (db : Option DB) (now : Nat),
        require_auth db none now = .error ⟨401, "Missing Authorization header"⟩) ∧
    (∀ (db : Option DB) (h : String) (now : Nat),
        require_auth db (some h) now = authToken db (pyReplaceBearer h) now) ∧
    (∀ t : String, hasBearer t.data = false →
        pyReplaceBearer ("Bearer " ++ t) = t ∧ pyReplaceBearer t = t) :=
  ⟨fun _ _ => rfl, fun _ _ _ => rfl,
   fun t ht => ⟨pyReplaceBearer_bearer_head t ht, pyReplaceBearer_eq_self t ht⟩⟩

/-- Witness for amended C5 at the concrete token `"tok9"`. -/
theorem require_auth_bearer_replace_all_witness :
    hasBearer ("tok9" : String).data = false ∧
    pyReplaceBearer ("Bearer " ++ "tok9") = "tok9" ∧ pyReplaceBearer "tok9" = "tok9" :=
  ⟨by decide, (require_auth_bearer_replace_all.2.2 "tok9" (by decide)).1,
   (require_auth_bearer_replace_all.2.2 "tok9" (by decide)).2⟩

/-! ### Login and subsequent authentication (claims C1, C7, C10) -/

theorem find?_append_of_eq_none {α : Type} (p : α → Bool) (l1 l2 : List α)
    (h : l1.find? p = none) : (l1 ++ l2).find? p = l2.find? p := by
  induction l1 with
  | nil => rfl
  | cons a l ih =>
    cases hpa : p a with
    | true => rw [List.find?_cons_of_pos _ hpa] at h; cases h
    | false =>
      have hna : ¬p a = true := by simp [hpa]
      rw [List.find?_cons_of_neg _ hna] at h
      rw [List.cons_append, List.find?_cons_of_neg _ hna]
      exact ih h

theorem login_auth_core (d : DB) (payload : LoginRequest) (now now2 : Nat)
    (bytes : List Nat) (u : AdminUserDoc)
    (hfind : d.adminusers.find? (fun x => x.username == payload.username && x.is_active) = some u)
    (hpw : u.password_hash = some (hash_password payload.password))
    (hfresh : ∀ s ∈ d.sessions, s.token ≠ tokenHex bytes)
    (htime : now2 ≤ now + eightHours) :
    login (some d) payload now bytes =
      (some { d with sessions := d.sessions ++ [mkSession u now bytes] },
       .ok ⟨tokenHex bytes, u.name.getD "Admin", u.role.getD "admin"⟩) ∧
    require_auth (some { d with sessions := d.sessions ++ [mkSession u now bytes] })
      (some (tokenHex bytes)) now2 = .ok (.session (mkSession u now bytes)) := by
  constructor
  · simp only [login, hfind]
    rw [if_neg (not_not_intro hpw)]
  · have hnone : d.sessions.find? (fun s => s.token == tokenHex bytes && !s.revoked) = none := by
      rw [List.find?_eq_none]
      intro s hs hc
      rw [Bool.and_eq_true, beq_iff_eq] at hc
      exact hfresh s hs hc.1
    have hfind2 : (d.sessions ++ [mkSession u now bytes]).find?
        (fun s => s.token == tokenHex bytes && !s.revoked) = some (mkSession u now bytes) := by
      rw [find?_append_of_eq_none _ _ _ hnone]
      exact List.find?_cons_of_pos _ (by simp [mkSession])
    simp only [require_auth]
    rw [pyReplaceBearer_tokenHex]
    simp only [authToken]
    rw [hfind2]
    simp only [mkSession]
    rw [if_neg (Nat.not_lt.mpr htime)]

/-- C1: a successful store-mode login yields a token that a subsequent
authenticate call (against the updated store, before expiry, with a token not
already stored) accepts, reporting the same role login returned. -/
theorem login_then_authenticate_same_role (d : DB) (payload : LoginRequest) (now now2 : Nat)
    (bytes : List Nat) (u : AdminUserDoc)
    (hfind : d.adminusers.find? (fun x => x.username == payload.username && x.is_active) = some u)
    (hpw : u.password_hash = some (hash_password payload.password))
    (hfresh : ∀ s ∈ d.sessions, s.token ≠ tokenHex bytes)
    (htime : now2 ≤ now + eightHours) :
    ∃ resp db' s, login (some d) payload now bytes = (some db', .ok resp) ∧
      require_auth (some db') (some resp.token) now2 = .ok (.session s) ∧
      s.role = resp.role := by
  obtain ⟨h1, h2⟩ := login_auth_core d payload now now2 bytes u hfind hpw hfresh htime
  exact ⟨_, _, _, h1, h2, rfl⟩

/-- 24 concrete bytes standing in for `secrets.token_hex(24)`'s draw. -/
def wBytes : List Nat := List.replicate 24 171

/-- Witness for C1: `wUser` logging in with its own password at time 0,
authenticating at time 100. -/
theorem login_then_authenticate_same_role_witness :
    wDB.adminusers.find? (fun x => x.username == "siti" && x.is_active) = some wUser ∧
    wUser.password_hash = some (hash_password "correct-horse") ∧
    (∀ s ∈ wDB.sessions, s.token ≠ tokenHex wBytes) ∧
    100 ≤ 0 + eightHours ∧
    (∃ resp db' s, login (some wDB) ⟨"siti", "correct-horse"⟩ 0 wBytes = (some db', .ok resp) ∧
      require_auth (some db') (some resp.token) 100 = .ok (.session s) ∧
      s.role = resp.role) :=
  ⟨rfl, rfl, by decide, by decide,
   login_then_authenticate_same_role wDB ⟨"siti", "correct-horse"⟩ 0 100 wBytes wUser
     rfl rfl (by decide) (by decide)⟩

/-- C7: a successful store-mode login inserts exactly one new session — not
revoked, expiring at issuance time plus eight hours, carrying the issued
token — and responds with that token, the user's display name and role; with
24 random bytes the token is 48 lowercase hex characters. -/
theorem login_success_session_shape (d : DB) (payload : LoginRequest) (now : Nat)
    (bytes : List Nat) (u : AdminUserDoc)
    (hfind : d.adminusers.find? (fun x => x.username == payload.username && x.is_active) = some u)
    (hpw : u.password_hash = some (hash_password payload.password))
    (hlen : bytes.length = 24) :
    login (some d) payload now bytes =
      (some { d with sessions := d.sessions ++ [mkSession u now bytes] },
       .ok ⟨tokenHex bytes, u.name.getD "Admin", u.role.getD "admin"⟩) ∧
    (mkSession u now bytes).expires_at = some (now + eightHours) ∧
    (mkSession u now bytes).revoked = false ∧
    (mkSession u now bytes).token = tokenHex bytes ∧
    48 ≤ (tokenHex bytes).length ∧
    (∀ c ∈ (tokenHex bytes).data, c ∈ hexChars) := by
  refine ⟨?_, rfl, rfl, rfl, ?_, mem_tokenHex_hexChars bytes⟩
  · simp only [login, hfind]
    rw [if_neg (not_not_intro hpw)]
  · rw [tokenHex_length, hlen]

/-- Witness for C7 with the concrete store `wDB` and bytes `wBytes`. -/
theorem login_success_session_shape_witness :
    wDB.adminusers.find? (fun x => x.username == "siti" && x.is_active) = some wUser ∧
    wUser.password_hash = some (hash_password "correct-horse") ∧
    wBytes.length = 24 ∧
    (login (some wDB) ⟨"siti", "correct-horse"⟩ 0 wBytes =
      (some { wDB with sessions := wDB.sessions ++ [mkSession wUser 0 wBytes] },
       .ok ⟨tokenHex wBytes, wUser.name.getD "Admin", wUser.role.getD "admin"⟩) ∧
    (mkSession wUser 0 wBytes).expires_at = some (0 + eightHours) ∧
    (mkSession wUser 0 wBytes).revoked = false ∧
    (mkSession wUser 0 wBytes).token = tokenHex wBytes ∧
    48 ≤ (tokenHex wBytes).length ∧
    (∀ c ∈ (tokenHex wBytes).data, c ∈ hexChars)) :=
  ⟨rfl, rfl, rfl,
   login_success_session_shape wDB ⟨"siti", "correct-horse"⟩ 0 wBytes wUser rfl rfl rfl⟩

/-- C10: the session a store-mode login persists has no name field, so the
dashboard's fallback reports `"Administrator"` as the user name regardless of
the logged-in user's actual display name. -/
theorem dashboard_name_always_administrator (d : DB) (payload : LoginRequest) (now now2 : Nat)
    (bytes : List Nat) (u : AdminUserDoc)
    (hfind : d.adminusers.find? (fun x => x.username == payload.username && x.is_active) = some u)
    (hpw : u.password_hash = some (hash_password payload.password))
    (hfresh : ∀ s ∈ d.sessions, s.token ≠ tokenHex bytes)
    (htime : now2 ≤ now + eightHours) :
    ∃ db' resp, login (some d) payload now bytes = (some db', .ok resp) ∧
      require_auth (some db') (some resp.token) now2 = .ok (.session (mkSession u now bytes)) ∧
      (mkSession u now bytes).name = none ∧
      (dashboard (.session (mkSession u now bytes))).user_name = "Administrator" := by
  obtain ⟨h1, h2⟩ := login_auth_core d payload now now2 bytes u hfind hpw hfresh htime
  exact ⟨_, _, h1, h2, rfl, rfl⟩

/-- Witness for C10: `wUser` has display name `"Siti Aminah"`, yet the
dashboard reports `"Administrator"`. -/
theorem dashboard_name_always_administrator_witness :
    wDB.adminusers.find? (fun x => x.username == "siti" && x.is_active) = some wUser ∧
    wUser.password_hash = some (hash_password "correct-horse") ∧
    (∀ s ∈ wDB.sessions, s.token ≠ tokenHex wBytes) ∧
    100 ≤ 0 + eightHours ∧
    wUser.name = some "Siti Aminah" ∧
    (∃ db' resp, login (some wDB) ⟨"siti", "correct-horse"⟩ 0 wBytes = (some db', .ok resp) ∧
      require_auth (some db') (some resp.token) 100 = .ok (.session (mkSession wUser 0 wBytes)) ∧
      (mkSession wUser 0 wBytes).name = none ∧
      (dashboard (.session (mkSession wUser 0 wBytes))).user_name = "Administrator") :=
  ⟨rfl, rfl, by decide, by decide, rfl,
   dashboard_name_always_administrator wDB ⟨"siti", "correct-horse"⟩ 0 100 wBytes wUser
     rfl rfl (by decide) (by decide)⟩

/-! ### Bootstrap (claims C8, C9) -/

theorem create_default_admin_of_none (d : DB) (t : Nat)
    (h0 : countAdmin d.adminusers = 0) :
    create_default_admin (some d) t =
      some { d with adminusers := d.adminusers ++ [defaultAdminDoc t] } := by
  have hfind : d.adminusers.find? (fun u => u.username == "admin") = none := by
    rw [List.find?_eq_none]
    intro u hu hc
    have hnil : d.adminusers.filter (fun u => u.username == "admin") = [] :=
      List.length_eq_zero.mp h0
    exact List.filter_eq_nil_iff.mp hnil u hu hc
  simp [create_default_admin, hfind]

theorem countAdmin_append_default (l : List AdminUserDoc) (t : Nat) :
    countAdmin (l ++ [defaultAdminDoc t]) = countAdmin l + 1 := by
  simp [countAdmin, List.filter_append, defaultAdminDoc]

theorem create_default_admin_of_pos (d : DB) (t : Nat)
    (h1 : 0 < countAdmin d.adminusers) :
    create_default_admin (some d) t = some d := by
  have hne : d.adminusers.filter (fun u => u.username == "admin") ≠ [] := by
    intro hnil
    rw [countAdmin, hnil] at h1
    exact Nat.lt_irrefl 0 h1
  obtain ⟨u, hu⟩ := List.exists_mem_of_ne_nil _ hne
  have hsome : (d.adminusers.find? (fun u => u.username == "admin")).isSome :=
    List.find?_isSome.mpr ⟨u, (List.mem_filter.mp hu).1, (List.mem_filter.mp hu).2⟩
  rcases hfound : d.adminusers.find? (fun u => u.username == "admin") with _ | v
  · rw [hfound] at hsome; cases hsome
  · simp [create_default_admin, hfound]

theorem bootstrapMany_fixed (ts : List Nat) (d : DB)
    (h1 : 0 < countAdmin d.adminusers) :
    bootstrapMany ts (some d) = some d := by
  induction ts with
  | nil => rfl
  | cons t ts ih => rw [bootstrapMany, create_default_admin_of_pos d t h1]; exact ih

/-- C8: starting from a reachable store with no admin user, any positive
number of bootstrap runs leaves exactly one document with username
`"admin"`. -/
theorem bootstrap_idempotent (d : DB) (times : List Nat)
    (h0 : countAdmin d.adminusers = 0) (hne : times ≠ []) :
    ∃ d', bootstrapMany times (some d) = some d' ∧ countAdmin d'.adminusers = 1 := by
  rcases times with _ | ⟨t, ts⟩
  · exact absurd rfl hne
  · refine ⟨{ d with adminusers := d.adminusers ++ [defaultAdminDoc t] }, ?_, ?_⟩
    · rw [bootstrapMany, create_default_admin_of_none d t h0]
      exact bootstrapMany_fixed ts _ (by rw [countAdmin_append_default, h0]; exact Nat.zero_lt_one)
    · rw [countAdmin_append_default, h0]

/-- Witness for C8: three bootstrap runs over a store whose only user is not
named `"admin"`. -/
theorem bootstrap_idempotent_witness :
    countAdmin wDB.adminusers = 0 ∧ ([0, 5, 9] : List Nat) ≠ [] ∧
    ∃ d', bootstrapMany [0, 5, 9] (some wDB) = some d' ∧ countAdmin d'.adminusers = 1 :=
  ⟨rfl, by decide, bootstrap_idempotent wDB [0, 5, 9] rfl (by decide)⟩

/-- C9: bootstrapping a reachable store with no prior admin user installs an
active admin whose stored hash is that of `"admin123"`, and login with the
pair `("admin", "admin123")` then succeeds, reporting name `"Administrator"`
and role `"admin"`. -/
theorem bootstrap_then_admin_login (d : DB) (t now : Nat) (bytes : List Nat)
    (h0 : ∀ u ∈ d.adminusers, u.username ≠ "admin") :
    (defaultAdminDoc t).password_hash = some (hash_password "admin123") ∧
    (defaultAdminDoc t).is_active = true ∧
    ∃ d1, create_default_admin (some d) t = some d1 ∧
      ∃ db' resp, login (some d1) ⟨"admin", "admin123"⟩ now bytes = (db', .ok resp) ∧
        resp.name = "Administrator" ∧ resp.role = "admin" := by
  refine ⟨rfl, rfl, { d with adminusers := d.adminusers ++ [defaultAdminDoc t] }, ?_, ?_⟩
  · have hfind : d.adminusers.find? (fun u => u.username == "admin") = none := by
      rw [List.find?_eq_none]
      intro u hu hc
      exact h0 u hu (beq_iff_eq.mp hc)
    simp [create_default_admin, hfind]
  · have hnone : d.adminusers.find?
        (fun x => x.username == ("admin" : String) && x.is_active) = none := by
      rw [List.find?_eq_none]
      intro u hu hc
      rw [Bool.and_eq_true, beq_iff_eq] at hc
      exact h0 u hu hc.1
    have hfind2 : (d.adminusers ++ [defaultAdminDoc t]).find?
        (fun x => x.username == ("admin" : String) && x.is_active) = some (defaultAdminDoc t) := by
      rw [find?_append_of_eq_none _ _ _ hnone]
      exact List.find?_cons_of_pos _ (by simp [defaultAdminDoc])
    refine ⟨some ({ adminusers := d.adminusers ++ [defaultAdminDoc t]
                    sessions := d.sessions ++ [mkSession (defaultAdminDoc t) now bytes] } : DB),
      ⟨tokenHex bytes, (defaultAdminDoc t).name.getD "Admin",
        (defaultAdminDoc t).role.getD "admin"⟩, ?_, rfl, rfl⟩
    simp only [login, hfind2]
    rw [if_neg (show ¬((defaultAdminDoc t).password_hash ≠ some (hash_password "admin123")) from
      not_not_intro rfl)]

/-- Witness for C9 over the store `wDB`, whose only user is `"siti"`. -/
theorem bootstrap_then_admin_login_witness :
    (∀ u ∈ wDB.adminusers, u.username ≠ "admin") ∧
    ((defaultAdminDoc 3).password_hash = some (hash_password "admin123") ∧
     (defaultAdminDoc 3).is_active = true ∧
     ∃ d1, create_default_admin (some wDB) 3 = some d1 ∧
       ∃ db' resp, login (some d1) ⟨"admin", "admin123"⟩ 10 wBytes = (db', .ok resp) ∧
         resp.name = "Administrator" ∧ resp.role = "admin") :=
  ⟨by decide, bootstrap_then_admin_login wDB 3 10 wBytes (by decide)⟩
